import Mathlib

/-!
Shallow embedding of `src/go/micromdm-webhook.go` (a MicroMDM webhook
relay).  The Go program keeps an in-memory map from device UDID to a
`Device` record, classifies inbound webhook events by topic, mutates the
map, and sends follow-up commands to the MDM server.  Handlers are
embedded as pure functions from the server state and the decoded event to
a `StepOutput` recording the new registry, the HTTP error status written
(if any), the outbound commands issued, and the log lines produced.
-/

namespace MicroMDMWebhook

/-- Device mirrors the Go struct `Device` (UDID and Enrolled fields). -/
structure Device where
  UDID : String
  Enrolled : Bool
deriving Repr, DecidableEq

/-- Registry models the Go map `map[string]Device`: lookup yields `none`
when the key is absent. -/
def Registry : Type := String → Option Device

/-- zeroDevice is the Go zero value a map lookup yields for a missing key. -/
def zeroDevice : Device := { UDID := "", Enrolled := false }

/-- Registry.update models the Go map assignment `m[k] = d`. -/
def Registry.update (r : Registry) (k : String) (d : Device) : Registry :=
  fun k2 => if k2 = k then some d else r k2

/-- Registry.emptyReg models `make(map[string]Device)`. -/
def Registry.emptyReg : Registry := fun _ => none

/-- Server mirrors the Go struct `Server`. -/
structure Server where
  MDMServerURL : String
  MDMAPIKey : String
  Devices : Registry

/-- Command mirrors the Go struct `Command` with its JSON tags `udid` and
`request_type`. -/
structure Command where
  UDID : String
  RequestType : String
deriving Repr, DecidableEq

/-- Command.jsonFields lists the key/value pairs of the JSON object the Go
encoder produces for a `Command`, in struct order, per the json tags. -/
def Command.jsonFields (c : Command) : List (String × String) :=
  [("udid", c.UDID), ("request_type", c.RequestType)]

/-- CheckinEvent mirrors the field of `webhook.Event` the Go code reads
from the checkin payload (only `UDID` is used). -/
structure CheckinEvent where
  UDID : String
deriving Repr, DecidableEq

/-- AcknowledgeEvent mirrors the fields of the acknowledge payload the Go
code can reference: the device UDID and the raw response blob
(`RawPayload`, read as a string by `handleConnect`). -/
structure AcknowledgeEvent where
  UDID : String
  RawPayload : String
deriving Repr, DecidableEq

/-- Event mirrors `webhook.Event`: a topic string plus the two optional
payload variants (Go nil pointers become `Option`).  Fields of the
library struct the program never reads are omitted. -/
structure Event where
  Topic : String
  CheckinEvent : Option CheckinEvent
  AcknowledgeEvent : Option AcknowledgeEvent
deriving Repr, DecidableEq

/-- AuthenticateTopic is the constant `mdm.AuthenticateTopic`. -/
def AuthenticateTopic : String := "mdm.Authenticate"

/-- TokenUpdateTopic is the constant `mdm.TokenUpdateTopic`. -/
def TokenUpdateTopic : String := "mdm.TokenUpdate"

/-- ConnectTopic is the constant `mdm.ConnectTopic`. -/
def ConnectTopic : String := "mdm.Connect"

/-- CheckoutTopic is the constant `mdm.CheckoutTopic`. -/
def CheckoutTopic : String := "mdm.CheckOut"

/-- listStartsWith checks that the second list is a leading segment of the
first, used to embed Go `strings.Contains`. -/
def listStartsWith : List Char → List Char → Bool
  | _, [] => true
  | [], _ :: _ => false
  | a :: as, b :: bs => a = b && listStartsWith as bs

/-- listHasSegment checks that the second list occurs contiguously inside
the first. -/
def listHasSegment : List Char → List Char → Bool
  | [], pat => pat.isEmpty
  | a :: rest, pat => listStartsWith (a :: rest) pat || listHasSegment rest pat

/-- stringContains embeds Go `strings.Contains s pat`. -/
def stringContains (s pat : String) : Bool :=
  listHasSegment s.toList pat.toList

/-- StepOutput is the observable effect of one handler invocation: the
registry afterwards, the HTTP error status written to the response writer
(`none` when nothing was written), the outbound commands handed to
`sendCommandToDevice`, the `log.Println` lines, and the `logrus.Warnf`
lines. -/
structure StepOutput where
  devices : Registry
  httpStatus : Option Nat
  commands : List Command
  printed : List String
  warnings : List String

/-- handleAuthenticate embeds the Go method `(*Server).handleAuthenticate`:
reject a missing checkin payload with HTTP 400, otherwise look the device
up (noting prior existence), overwrite UDID, clear Enrolled, store it
back, and print the new/re-enrolling log line. -/
def handleAuthenticate (s : Server) (event : Event) : StepOutput :=
  match event.CheckinEvent with
  | none =>
      { devices := s.Devices, httpStatus := some 400, commands := []
        printed := [], warnings := [] }
  | some ce =>
      let prior := s.Devices ce.UDID
      let d0 := prior.getD zeroDevice
      let d : Device := { d0 with UDID := ce.UDID, Enrolled := false }
      { devices := s.Devices.update ce.UDID d
        httpStatus := none
        commands := []
        printed := [if prior.isSome then "re-enrolling device " ++ d.UDID
                    else "enrolling new device " ++ d.UDID]
        warnings := [] }

/-- handleTokenUpdate embeds the Go method `(*Server).handleTokenUpdate`:
reject a missing checkin payload with HTTP 400, otherwise store the
device with Enrolled = true and send one InstalledApplicationList
command to it. -/
def handleTokenUpdate (s : Server) (event : Event) : StepOutput :=
  match event.CheckinEvent with
  | none =>
      { devices := s.Devices, httpStatus := some 400, commands := []
        printed := [], warnings := [] }
  | some ce =>
      let d0 := (s.Devices ce.UDID).getD zeroDevice
      let d : Device := { d0 with UDID := ce.UDID, Enrolled := true }
      { devices := s.Devices.update ce.UDID d
        httpStatus := none
        commands := [{ UDID := d.UDID, RequestType := "InstalledApplicationList" }]
        printed := []
        warnings := [] }

/-- handleConnect embeds the Go method `(*Server).handleConnect`: reject a
missing acknowledge payload with HTTP 400, otherwise print the raw
payload when it contains the substring InstalledApplicationList.  The
registry is untouched. -/
def handleConnect (s : Server) (event : Event) : StepOutput :=
  match event.AcknowledgeEvent with
  | none =>
      { devices := s.Devices, httpStatus := some 400, commands := []
        printed := [], warnings := [] }
  | some ae =>
      let xml := ae.RawPayload
      { devices := s.Devices
        httpStatus := none
        commands := []
        printed := if stringContains xml "InstalledApplicationList" then [xml] else []
        warnings := [] }

/-- handleCheckOut embeds the Go method `(*Server).handleCheckOut`: reject
a missing checkin payload with HTTP 400, otherwise store the device with
Enrolled = false. -/
def handleCheckOut (s : Server) (event : Event) : StepOutput :=
  match event.CheckinEvent with
  | none =>
      { devices := s.Devices, httpStatus := some 400, commands := []
        printed := [], warnings := [] }
  | some ce =>
      let d0 := (s.Devices ce.UDID).getD zeroDevice
      let d : Device := { d0 with UDID := ce.UDID, Enrolled := false }
      { devices := s.Devices.update ce.UDID d
        httpStatus := none
        commands := []
        printed := []
        warnings := [] }

/-- unknownTopicWarning is the warning `handleWebhook` records in its
default switch branch, with the Go format verb `%q` rendered as the topic
wrapped in double quotes. -/
def unknownTopicWarning (topic : String) : String :=
  "The event\x27s topic was not mdm.Authenticate, mdm.TokenUpdate, mdm.Connect, or mdm.Checkout. It was \"" ++ topic ++ "\""

/-- handleEvent embeds the topic switch of `(*Server).handleWebhook` after
a successful JSON decode: route to the handler whose topic matches, or
record only a warning. -/
def handleEvent (s : Server) (event : Event) : StepOutput :=
  if event.Topic = AuthenticateTopic then handleAuthenticate s event
  else if event.Topic = TokenUpdateTopic then handleTokenUpdate s event
  else if event.Topic = ConnectTopic then handleConnect s event
  else if event.Topic = CheckoutTopic then handleCheckOut s event
  else
    { devices := s.Devices, httpStatus := none, commands := []
      printed := [], warnings := [unknownTopicWarning event.Topic] }

/-- processEvent runs one webhook invocation and keeps the updated
registry in the server state. -/
def processEvent (s : Server) (event : Event) : Server × StepOutput :=
  let out := handleEvent s event
  ({ s with Devices := out.devices }, out)

/-- processEvents folds a whole trace of decoded events through the
server, as successive webhook requests would. -/
def processEvents (s : Server) : List Event → Server
  | [] => s
  | e :: es => processEvents (processEvent s e).1 es

/-- mkServer models the server `main` builds: the configured URL and API
key with an empty device map. -/
def mkServer (url key : String) : Server :=
  { MDMServerURL := url, MDMAPIKey := key, Devices := Registry.emptyReg }

/-- HttpRequest records the parts of the outbound POST the Go dispatcher
builds: method, URL, basic-auth credentials and the JSON-encoded command
body. -/
structure HttpRequest where
  method : String
  url : String
  basicAuthUser : String
  basicAuthPass : String
  body : Command
deriving Repr, DecidableEq

/-- HttpResponse models the response value `client.Do` yields when the
HTTP exchange completes; only the status code is carried.  An HTTP-level
rejection such as a 401 from failed basic auth arrives as a completed
response with a nil Go error, not as a transport error. -/
structure HttpResponse where
  statusCode : Nat
deriving Repr, DecidableEq

/-- DispatchResult is the observable effect of `sendCommandToDevice`
given the outcome of the transport call `client.Do`: the requests
actually attempted, whether the process terminated (`log.Fatal`), and the
errors logged. -/
structure DispatchResult where
  requests : List HttpRequest
  fatal : Bool
  errorLogs : List String
deriving Repr, DecidableEq

/-- sendCommandToDevice embeds the Go method `(*Server).sendCommandToDevice`.
The outcome of the network round trip is supplied as an `Except`
parameter: `Except.ok` carries the HTTP response `client.Do` returned,
`Except.error` its Go error.  The Go code discards the response value
(`_, err = client.Do(req)`), so a completed exchange — whatever its
status code — takes the success path; only a non-nil Go error is logged
and followed by `log.Fatal`, which terminates the process. -/
def sendCommandToDevice (s : Server) (d : Device) (requestType : String)
    (transport : Except String HttpResponse) : DispatchResult :=
  let c : Command := { UDID := d.UDID, RequestType := requestType }
  let req : HttpRequest :=
    { method := "POST"
      url := s.MDMServerURL ++ "/v1/commands"
      basicAuthUser := "micromdm"
      basicAuthPass := s.MDMAPIKey
      body := c }
  match transport with
  | Except.ok _ => { requests := [req], fatal := false, errorLogs := [] }
  | Except.error e =>
      { requests := [req], fatal := true
        errorLogs := ["send command to device: " ++ e] }

/-- Event.refersTo holds when the event carries the identifier in either
payload variant. -/
def Event.refersTo (e : Event) (u : String) : Bool :=
  (match e.CheckinEvent with
   | some ce => ce.UDID = u
   | none => false) ||
  (match e.AcknowledgeEvent with
   | some ae => ae.UDID = u
   | none => false)

/-- Event.checkinWrites holds when the event has one of the three
checkin-handled topics and a checkin payload carrying the identifier, i.e.
exactly when processing it writes the registry entry for that identifier. -/
def Event.checkinWrites (e : Event) (u : String) : Bool :=
  (e.Topic = AuthenticateTopic || e.Topic = TokenUpdateTopic || e.Topic = CheckoutTopic) &&
  (match e.CheckinEvent with
   | some ce => ce.UDID = u
   | none => false)

lemma tu_ne_auth : TokenUpdateTopic ≠ AuthenticateTopic := by decide

lemma conn_ne_auth : ConnectTopic ≠ AuthenticateTopic := by decide

lemma conn_ne_tu : ConnectTopic ≠ TokenUpdateTopic := by decide

lemma conn_ne_co : ConnectTopic ≠ CheckoutTopic := by decide

lemma co_ne_auth : CheckoutTopic ≠ AuthenticateTopic := by decide

lemma co_ne_tu : CheckoutTopic ≠ TokenUpdateTopic := by decide

lemma co_ne_conn : CheckoutTopic ≠ ConnectTopic := by decide

/-- exampleServer is a concrete freshly started server used in witnesses. -/
def exampleServer : Server := mkServer "https://mdm.example" "secret"

/-- checkinABC is a concrete checkin payload for device ABC. -/
def checkinABC : CheckinEvent := { UDID := "ABC" }

/-- tokenUpdateEventABC is a concrete TokenUpdate event for device ABC. -/
def tokenUpdateEventABC : Event :=
  { Topic := TokenUpdateTopic, CheckinEvent := some checkinABC, AcknowledgeEvent := none }

/-- authEventABC is a concrete Authenticate event for device ABC. -/
def authEventABC : Event :=
  { Topic := AuthenticateTopic, CheckinEvent := some checkinABC, AcknowledgeEvent := none }

/-- checkOutEventABC is a concrete CheckOut event for device ABC. -/
def checkOutEventABC : Event :=
  { Topic := CheckoutTopic, CheckinEvent := some checkinABC, AcknowledgeEvent := none }

/-- emptyAuthEvent is an Authenticate event with no checkin payload. -/
def emptyAuthEvent : Event :=
  { Topic := AuthenticateTopic, CheckinEvent := none, AcknowledgeEvent := none }

/-- strayEvent is an event with an unrecognized topic. -/
def strayEvent : Event :=
  { Topic := "mdm.SomethingElse", CheckinEvent := some checkinABC, AcknowledgeEvent := none }

/-- connectEventABC is a concrete Connect event whose raw blob contains
the InstalledApplicationList marker. -/
def connectEventABC : Event :=
  { Topic := ConnectTopic, CheckinEvent := none
    AcknowledgeEvent := some { UDID := "ABC", RawPayload := "<plist>InstalledApplicationList</plist>" } }

/-- C1: processing a TokenUpdate event with a present checkin payload
stores the device with Enrolled = true (creating the record if absent,
since the prior registry is arbitrary) and issues exactly one outbound
InstalledApplicationList command addressed to that identifier, on every
invocation. -/
theorem tokenUpdate_enrolls_and_sends_one_command (s : Server) (event : Event)
    (ce : CheckinEvent) (htopic : event.Topic = TokenUpdateTopic)
    (hce : event.CheckinEvent = some ce) :
    (handleEvent s event).devices ce.UDID = some { UDID := ce.UDID, Enrolled := true } ∧
    (handleEvent s event).commands =
      [{ UDID := ce.UDID, RequestType := "InstalledApplicationList" }] ∧
    (handleEvent s event).httpStatus = none := by
  unfold handleEvent
  rw [htopic, if_neg tu_ne_auth, if_pos rfl]
  unfold handleTokenUpdate
  rw [hce]
  refine ⟨?_, rfl, rfl⟩
  simp [Registry.update]

/-- Witness instantiating the TokenUpdate theorem on a fresh server and a
concrete event for device ABC. -/
theorem tokenUpdate_enrolls_witness :
    (handleEvent exampleServer tokenUpdateEventABC).devices "ABC" =
      some { UDID := "ABC", Enrolled := true } ∧
    (handleEvent exampleServer tokenUpdateEventABC).commands =
      [{ UDID := "ABC", RequestType := "InstalledApplicationList" }] ∧
    (handleEvent exampleServer tokenUpdateEventABC).httpStatus = none :=
  tokenUpdate_enrolls_and_sends_one_command exampleServer tokenUpdateEventABC checkinABC rfl rfl

/-- C3: processing an Authenticate event whose checkin payload carries an
identifier with no registry entry creates a record with that identifier
and Enrolled = false, and prints the new-device log line. -/
theorem authenticate_creates_unenrolled (s : Server) (event : Event)
    (ce : CheckinEvent) (htopic : event.Topic = AuthenticateTopic)
    (hce : event.CheckinEvent = some ce)
    (hnew : s.Devices ce.UDID = none) :
    (handleEvent s event).devices ce.UDID = some { UDID := ce.UDID, Enrolled := false } ∧
    (handleEvent s event).printed = ["enrolling new device " ++ ce.UDID] ∧
    (handleEvent s event).commands = [] := by
  unfold handleEvent
  rw [htopic, if_pos rfl]
  unfold handleAuthenticate
  rw [hce]
  refine ⟨?_, ?_, rfl⟩
  · simp [Registry.update]
  · simp [hnew]

/-- Witness instantiating the Authenticate theorem on a fresh server. -/
theorem authenticate_creates_unenrolled_witness :
    (handleEvent exampleServer authEventABC).devices "ABC" =
      some { UDID := "ABC", Enrolled := false } ∧
    (handleEvent exampleServer authEventABC).printed = ["enrolling new device " ++ "ABC"] ∧
    (handleEvent exampleServer authEventABC).commands = [] :=
  authenticate_creates_unenrolled exampleServer authEventABC checkinABC rfl rfl rfl

/-- C4: processing a CheckOut event with a present checkin payload stores
the device with Enrolled = false, whatever the prior registry state
(creating the record if absent), and issues no command. -/
theorem checkout_clears_enrollment (s : Server) (event : Event)
    (ce : CheckinEvent) (htopic : event.Topic = CheckoutTopic)
    (hce : event.CheckinEvent = some ce) :
    (handleEvent s event).devices ce.UDID = some { UDID := ce.UDID, Enrolled := false } ∧
    (handleEvent s event).commands = [] := by
  unfold handleEvent
  rw [htopic, if_neg co_ne_auth, if_neg co_ne_tu, if_neg co_ne_conn, if_pos rfl]
  unfold handleCheckOut
  rw [hce]
  refine ⟨?_, rfl⟩
  simp [Registry.update]

/-- Witness instantiating the CheckOut theorem on a server already
holding an enrolled record for ABC. -/
theorem checkout_clears_enrollment_witness :
    (handleEvent
        { MDMServerURL := "https://mdm.example", MDMAPIKey := "secret"
          Devices := fun k => if k = "ABC" then some { UDID := "ABC", Enrolled := true } else none }
        checkOutEventABC).devices "ABC" = some { UDID := "ABC", Enrolled := false } ∧
    (handleEvent
        { MDMServerURL := "https://mdm.example", MDMAPIKey := "secret"
          Devices := fun k => if k = "ABC" then some { UDID := "ABC", Enrolled := true } else none }
        checkOutEventABC).commands = [] :=
  checkout_clears_enrollment _ checkOutEventABC checkinABC rfl rfl

/-- C5: an event with topic Authenticate, TokenUpdate, or CheckOut but an
absent checkin payload yields HTTP 400, leaves the registry exactly
unchanged, and issues no command. -/
theorem missing_checkin_yields_400 (s : Server) (event : Event)
    (htopic : event.Topic = AuthenticateTopic ∨ event.Topic = TokenUpdateTopic ∨
      event.Topic = CheckoutTopic)
    (hce : event.CheckinEvent = none) :
    (handleEvent s event).httpStatus = some 400 ∧
    (handleEvent s event).devices = s.Devices ∧
    (handleEvent s event).commands = [] := by
  unfold handleEvent
  rcases htopic with h | h | h
  · rw [h, if_pos rfl]
    unfold handleAuthenticate
    rw [hce]
    exact ⟨rfl, rfl, rfl⟩
  · rw [h, if_neg tu_ne_auth, if_pos rfl]
    unfold handleTokenUpdate
    rw [hce]
    exact ⟨rfl, rfl, rfl⟩
  · rw [h, if_neg co_ne_auth, if_neg co_ne_tu, if_neg co_ne_conn, if_pos rfl]
    unfold handleCheckOut
    rw [hce]
    exact ⟨rfl, rfl, rfl⟩

/-- Witness instantiating the missing-payload theorem on an Authenticate
event without a checkin payload. -/
theorem missing_checkin_yields_400_witness :
    (handleEvent exampleServer emptyAuthEvent).httpStatus = some 400 ∧
    (handleEvent exampleServer emptyAuthEvent).devices = exampleServer.Devices ∧
    (handleEvent exampleServer emptyAuthEvent).commands = [] :=
  missing_checkin_yields_400 exampleServer emptyAuthEvent (Or.inl rfl) rfl

/-- C6: an event whose topic is none of the four recognized values
invokes no handler: the registry is unchanged, no HTTP error is written,
no command is issued, nothing is printed, and exactly one warning is
recorded. -/
theorem unknown_topic_only_warns (s : Server) (event : Event)
    (h1 : event.Topic ≠ AuthenticateTopic) (h2 : event.Topic ≠ TokenUpdateTopic)
    (h3 : event.Topic ≠ ConnectTopic) (h4 : event.Topic ≠ CheckoutTopic) :
    (handleEvent s event).devices = s.Devices ∧
    (handleEvent s event).httpStatus = none ∧
    (handleEvent s event).commands = [] ∧
    (handleEvent s event).printed = [] ∧
    (handleEvent s event).warnings = [unknownTopicWarning event.Topic] := by
  unfold handleEvent
  rw [if_neg h1, if_neg h2, if_neg h3, if_neg h4]
  exact ⟨rfl, rfl, rfl, rfl, rfl⟩

/-- Witness instantiating the unknown-topic theorem on a concrete stray
topic. -/
theorem unknown_topic_only_warns_witness :
    (handleEvent exampleServer strayEvent).devices = exampleServer.Devices ∧
    (handleEvent exampleServer strayEvent).httpStatus = none ∧
    (handleEvent exampleServer strayEvent).commands = [] ∧
    (handleEvent exampleServer strayEvent).printed = [] ∧
    (handleEvent exampleServer strayEvent).warnings = [unknownTopicWarning strayEvent.Topic] :=
  unknown_topic_only_warns exampleServer strayEvent (by decide) (by decide) (by decide) (by decide)

/-- C7: processing a Connect event with a present acknowledge payload
prints the raw blob verbatim exactly when it contains the substring
InstalledApplicationList, never mutates the registry, and issues no
command. -/
theorem connect_logs_blob_iff_marker (s : Server) (event : Event)
    (ae : AcknowledgeEvent) (htopic : event.Topic = ConnectTopic)
    (hae : event.AcknowledgeEvent = some ae) :
    ((handleEvent s event).printed = [ae.RawPayload] ↔
      stringContains ae.RawPayload "InstalledApplicationList" = true) ∧
    ((handleEvent s event).printed = [] ↔
      stringContains ae.RawPayload "InstalledApplicationList" = false) ∧
    (handleEvent s event).devices = s.Devices ∧
    (handleEvent s event).commands = [] := by
  unfold handleEvent
  rw [htopic, if_neg conn_ne_auth, if_neg conn_ne_tu, if_pos rfl]
  unfold handleConnect
  rw [hae]
  cases hb : stringContains ae.RawPayload "InstalledApplicationList" <;>
    simp [hb]

/-- Witness instantiating the Connect theorem on a blob that contains the
marker. -/
theorem connect_logs_blob_iff_marker_witness :
    ((handleEvent exampleServer connectEventABC).printed =
        ["<plist>InstalledApplicationList</plist>"] ↔
      stringContains "<plist>InstalledApplicationList</plist>" "InstalledApplicationList" = true) ∧
    ((handleEvent exampleServer connectEventABC).printed = [] ↔
      stringContains "<plist>InstalledApplicationList</plist>" "InstalledApplicationList" = false) ∧
    (handleEvent exampleServer connectEventABC).devices = exampleServer.Devices ∧
    (handleEvent exampleServer connectEventABC).commands = [] :=
  connect_logs_blob_iff_marker exampleServer connectEventABC _ rfl rfl

/-- C8: the dispatcher always attempts exactly one POST to the configured
base URL plus /v1/commands, with basic-auth user micromdm and the
configured API key, and the JSON body of that single request has exactly
the fields udid and request type. -/
theorem dispatcher_request_shape (s : Server) (d : Device) (rt : String)
    (t : Except String HttpResponse) :
    (sendCommandToDevice s d rt t).requests =
      [{ method := "POST", url := s.MDMServerURL ++ "/v1/commands"
         basicAuthUser := "micromdm", basicAuthPass := s.MDMAPIKey
         body := { UDID := d.UDID, RequestType := rt } }] ∧
    (sendCommandToDevice s d rt t).requests.map (fun r => r.body.jsonFields) =
      [[("udid", d.UDID), ("request_type", rt)]] := by
  cases t <;> exact ⟨rfl, rfl⟩

/-- C9 counterexample: when the POST completes with an HTTP 401
authentication-failure response, `client.Do` reports no error, the
response is discarded, and the process neither logs anything nor
terminates — so an authentication failure of the POST is not fatal,
refuting the claim for the authentication-failure case it names. -/
theorem auth_failure_response_not_fatal :
    (sendCommandToDevice exampleServer { UDID := "ABC", Enrolled := true }
        "InstalledApplicationList" (Except.ok { statusCode := 401 })).fatal = false ∧
    (sendCommandToDevice exampleServer { UDID := "ABC", Enrolled := true }
        "InstalledApplicationList" (Except.ok { statusCode := 401 })).errorLogs = [] :=
  ⟨rfl, rfl⟩

/-- C9 (amended): the dispatcher logs an error and terminates the process
exactly when the transport call itself returns an error; whenever the
HTTP exchange completes, whatever its status code — including a 401 from
rejected authentication — the process continues with nothing logged. -/
theorem dispatcher_fatal_iff_transport_error (s : Server) (d : Device) (rt : String)
    (t : Except String HttpResponse) :
    ((sendCommandToDevice s d rt t).fatal = true ↔ ∃ e, t = Except.error e) ∧
    ((sendCommandToDevice s d rt t).errorLogs ≠ [] ↔ ∃ e, t = Except.error e) ∧
    (∀ resp : HttpResponse, t = Except.ok resp →
      (sendCommandToDevice s d rt t).fatal = false ∧
      (sendCommandToDevice s d rt t).errorLogs = []) := by
  cases t with
  | ok u => simp [sendCommandToDevice]
  | error e => simp [sendCommandToDevice]

/-- Witness instantiating the amended dispatcher theorem on a completed
exchange whose status code is 401. -/
theorem dispatcher_fatal_iff_transport_error_witness :
    (sendCommandToDevice exampleServer { UDID := "DEF", Enrolled := true }
        "InstalledApplicationList" (Except.ok { statusCode := 401 })).fatal = false ∧
    (sendCommandToDevice exampleServer { UDID := "DEF", Enrolled := true }
        "InstalledApplicationList" (Except.ok { statusCode := 401 })).errorLogs = [] :=
  (dispatcher_fatal_iff_transport_error exampleServer { UDID := "DEF", Enrolled := true }
      "InstalledApplicationList" (Except.ok { statusCode := 401 })).2.2
    { statusCode := 401 } rfl

/-- C10: each of the three checkin handlers leaves every registry entry
other than the payload identifier exactly unchanged. -/
theorem handlers_preserve_other_entries (s : Server) (event : Event)
    (ce : CheckinEvent) (u : String)
    (hce : event.CheckinEvent = some ce) (hne : u ≠ ce.UDID) :
    (handleAuthenticate s event).devices u = s.Devices u ∧
    (handleTokenUpdate s event).devices u = s.Devices u ∧
    (handleCheckOut s event).devices u = s.Devices u := by
  unfold handleAuthenticate handleTokenUpdate handleCheckOut
  rw [hce]
  refine ⟨?_, ?_, ?_⟩ <;> simp [Registry.update, hne]

/-- Witness instantiating the frame theorem at a key other than ABC. -/
theorem handlers_preserve_other_entries_witness :
    (handleAuthenticate exampleServer authEventABC).devices "XYZ" =
      exampleServer.Devices "XYZ" ∧
    (handleTokenUpdate exampleServer authEventABC).devices "XYZ" =
      exampleServer.Devices "XYZ" ∧
    (handleCheckOut exampleServer authEventABC).devices "XYZ" =
      exampleServer.Devices "XYZ" :=
  handlers_preserve_other_entries exampleServer authEventABC checkinABC "XYZ" rfl (by decide)

lemma handleEvent_devices_isSome (s : Server) (e : Event) (u : String) :
    ((handleEvent s e).devices u).isSome =
      ((s.Devices u).isSome || e.checkinWrites u) := by
  unfold handleEvent Event.checkinWrites
  by_cases h1 : e.Topic = AuthenticateTopic
  · rw [if_pos h1]
    unfold handleAuthenticate
    cases hce : e.CheckinEvent with
    | none => simp [hce]
    | some ce =>
      by_cases hu : u = ce.UDID
      · simp [hce, h1, Registry.update, hu]
      · have hu2 : ¬ (ce.UDID = u) := fun h => hu h.symm
        simp [hce, Registry.update, hu, hu2]
  · rw [if_neg h1]
    by_cases h2 : e.Topic = TokenUpdateTopic
    · rw [if_pos h2]
      unfold handleTokenUpdate
      cases hce : e.CheckinEvent with
      | none => simp [hce]
      | some ce =>
        by_cases hu : u = ce.UDID
        · simp [hce, h2, Registry.update, hu]
        · have hu2 : ¬ (ce.UDID = u) := fun h => hu h.symm
          simp [hce, Registry.update, hu, hu2]
    · rw [if_neg h2]
      by_cases h3 : e.Topic = ConnectTopic
      · rw [if_pos h3]
        have h4 : e.Topic ≠ CheckoutTopic := by rw [h3]; exact conn_ne_co
        unfold handleConnect
        cases hae : e.AcknowledgeEvent with
        | none => simp [h1, h2, h4]
        | some ae => simp [h1, h2, h4]
      · rw [if_neg h3]
        by_cases h4 : e.Topic = CheckoutTopic
        · rw [if_pos h4]
          unfold handleCheckOut
          cases hce : e.CheckinEvent with
          | none => simp [hce]
          | some ce =>
            by_cases hu : u = ce.UDID
            · simp [hce, h4, Registry.update, hu]
            · have hu2 : ¬ (ce.UDID = u) := fun h => hu h.symm
              simp [hce, Registry.update, hu, hu2]
        · rw [if_neg h4]
          simp [h1, h2, h4]

lemma processEvents_devices_isSome (es : List Event) : ∀ (s : Server) (u : String),
    ((processEvents s es).Devices u).isSome =
      ((s.Devices u).isSome || es.any (fun e => e.checkinWrites u)) := by
  induction es with
  | nil => intro s u; simp [processEvents]
  | cons e es ih =>
      intro s u
      rw [processEvents, ih]
      simp [processEvent, handleEvent_devices_isSome, Bool.or_assoc]

/-- ackOnlyEvent is a Connect event referencing device ABC through its
acknowledge payload only. -/
def ackOnlyEvent : Event :=
  { Topic := ConnectTopic, CheckinEvent := none
    AcknowledgeEvent := some { UDID := "ABC", RawPayload := "blob" } }

/-- C2 counterexample: after a fresh server processes one Connect event
referencing device ABC, an event referencing ABC has been received yet no
registry record for ABC exists, so record existence is not equivalent to
having been referenced by some event. -/
theorem connect_refs_but_no_record :
    ackOnlyEvent.refersTo "ABC" = true ∧
    (processEvents (mkServer "https://mdm.example" "secret") [ackOnlyEvent]).Devices "ABC"
      = none := by
  exact ⟨rfl, rfl⟩

/-- C2 (amended): starting from the freshly built server, a registry
record for an identifier exists exactly when some processed event had
topic Authenticate, TokenUpdate, or CheckOut with a checkin payload
carrying that identifier; moreover no step ever deletes an existing
record. -/
theorem registry_record_iff_checkin_event (url key : String)
    (es : List Event) (u : String) :
    ((processEvents (mkServer url key) es).Devices u).isSome =
      es.any (fun e => e.checkinWrites u) ∧
    ∀ (s : Server) (e : Event), (s.Devices u).isSome = true →
      ((processEvent s e).1.Devices u).isSome = true := by
  constructor
  · rw [processEvents_devices_isSome]
    simp [mkServer, Registry.emptyReg]
  · intro s e h
    simp [processEvent, handleEvent_devices_isSome, h]

/-- Witness instantiating the amended registry invariant: the equivalence
on a one-event Authenticate trace, and preservation of an existing record
across a Connect step. -/
theorem registry_record_iff_checkin_event_witness :
    ((processEvents (mkServer "https://mdm.example" "secret") [authEventABC]).Devices
        "ABC").isSome = List.any [authEventABC] (fun e => e.checkinWrites "ABC") ∧
    ((processEvent
        { MDMServerURL := "https://mdm.example", MDMAPIKey := "secret"
          Devices := fun k => if k = "ABC" then some { UDID := "ABC", Enrolled := true } else none }
        ackOnlyEvent).1.Devices "ABC").isSome = true :=
  ⟨(registry_record_iff_checkin_event "https://mdm.example" "secret" [authEventABC] "ABC").1,
   (registry_record_iff_checkin_event "https://mdm.example" "secret" [] "ABC").2 _ ackOnlyEvent rfl⟩

end MicroMDMWebhook
